import Mathlib

/-!
Shallow embedding of the ton618 black-hole simulation engine.

The embedding follows the source files:
- `src/src/components/Simulation1.jsx` (disk-particle update, adaptive time step)
- `src/src/physics/CompanionStar.js`   (companion forces, Hill radius, setParameters)
- `src/src/physics/Star.js`            (tidal body: integrity, disruption, tidal radius)
- `src/unnamed/part_005`               (StellarDebris: generation, circularization)
- `src/unnamed/part_004`               (OrbitalMechanics: Hill sphere)

JavaScript numbers are modelled as real numbers; three.js vectors as a
record of three reals.  Purely visual work (meshes, colors, trails,
instance matrices) has no effect on the physical state and is elided.
Every random draw of the source (`Math.random()`) is an explicit input.
-/

namespace Ton618

noncomputable section
open Classical

/-! ## VectorMath: the subset of three.js `Vector3`/`Vector2` used by the engine -/

/-- A three.js `Vector3`: three real components. -/
@[ext] structure Vec3 where
  x : ℝ
  y : ℝ
  z : ℝ

namespace Vec3

/-- `Vector3.add`. -/
def add (a b : Vec3) : Vec3 := ⟨a.x + b.x, a.y + b.y, a.z + b.z⟩

/-- `Vector3.sub` / `subVectors`. -/
def sub (a b : Vec3) : Vec3 := ⟨a.x - b.x, a.y - b.y, a.z - b.z⟩

/-- `Vector3.multiplyScalar`. -/
def smul (c : ℝ) (a : Vec3) : Vec3 := ⟨c * a.x, c * a.y, c * a.z⟩

/-- `Vector3.dot`. -/
def dot (a b : Vec3) : ℝ := a.x * b.x + a.y * b.y + a.z * b.z

/-- `Vector3.cross`. -/
def cross (a b : Vec3) : Vec3 :=
  ⟨a.y * b.z - a.z * b.y, a.z * b.x - a.x * b.z, a.x * b.y - a.y * b.x⟩

/-- `Vector3.length`. -/
def length (a : Vec3) : ℝ := Real.sqrt (a.x ^ 2 + a.y ^ 2 + a.z ^ 2)

/-- The zero vector, `new THREE.Vector3(0, 0, 0)`. -/
def zero : Vec3 := ⟨0, 0, 0⟩

/-- `Vector3.normalize`: `divideScalar(length || 1)`; a zero-length vector is
returned unchanged. -/
def normalize (a : Vec3) : Vec3 :=
  if a.length = 0 then a else smul (1 / a.length) a

end Vec3

/-! ## CompanionStar (`src/src/physics/CompanionStar.js`)

Physical state of the companion star.  Visual members (meshes, corona,
wind/quantum instancing) are elided; every field read by the physics is kept.
-/

/-- The physics fields of a `CompanionStar` object. -/
structure CompanionState where
  blackHoleMass : ℝ
  mass : ℝ
  radius : ℝ
  temperature : ℝ
  orbitalRadius : ℝ
  orbitalVelocity : ℝ
  windVelocity : ℝ
  windDensity : ℝ
  gravitationalStrength : ℝ
  influenceRadius : ℝ
  hawkingRadiationIntensity : ℝ
  angle : ℝ
  inclination : ℝ
  eccentricity : ℝ
  enableWind : Bool
  enableGravity : Bool
  enableQuantumEffects : Bool
  position : Vec3
  velocity : Vec3

namespace CompanionStar

/-- `CompanionStar.calculateHillRadius`:
`massRatio = mass / (blackHoleMass / 1e9); orbitalRadius * (massRatio / 3) ^ (1/3)`. -/
def calculateHillRadius (mass blackHoleMass orbitalRadius : ℝ) : ℝ :=
  orbitalRadius * ((mass / (blackHoleMass / 1e9)) / 3) ^ ((1 : ℝ) / 3)

/-- `CompanionStar.calculateOrbitalVelocity`: `sqrt(G * M / r)` with `G = 0.1`. -/
def calculateOrbitalVelocity (blackHoleMass radius : ℝ) : ℝ :=
  Real.sqrt (0.1 * blackHoleMass / radius)

/-- Position written by `CompanionStar.updateOrbitalPosition`. -/
def orbitalPosition (angle inclination orbitalRadius : ℝ) : Vec3 :=
  ⟨Real.cos angle * orbitalRadius,
   Real.sin inclination * orbitalRadius * Real.sin angle,
   Real.sin angle * orbitalRadius * Real.cos inclination⟩

/-- Velocity written by `CompanionStar.updateOrbitalPosition`. -/
def orbitalVelocityVec (angle inclination orbitalVelocity : ℝ) : Vec3 :=
  ⟨-Real.sin angle * orbitalVelocity,
   Real.cos inclination * orbitalVelocity * Real.cos angle,
   Real.cos angle * orbitalVelocity * Real.cos inclination⟩

/-- `CompanionStar.calculateGravitationalForce(particlePosition)`. -/
def calculateGravitationalForce (s : CompanionState) (particlePosition : Vec3) : Vec3 :=
  if s.enableGravity = false then Vec3.zero else
  let toStar := Vec3.sub s.position particlePosition
  let distance := toStar.length
  if s.influenceRadius < distance then Vec3.zero else
  let forceMagnitude := s.mass * s.gravitationalStrength / (distance * distance + 1)
  Vec3.smul (forceMagnitude * 0.001) toStar.normalize

/-- `CompanionStar.calculateWindForce(particlePosition)`. -/
def calculateWindForce (s : CompanionState) (particlePosition : Vec3) : Vec3 :=
  if s.enableWind = false then Vec3.zero else
  let fromStar := Vec3.sub particlePosition s.position
  let distance := fromStar.length
  let windRange := s.radius * 2
  if windRange < distance then Vec3.zero else
  let windStrength := s.windDensity * s.windVelocity / (distance * distance + 1)
  Vec3.smul (windStrength * 0.0001) fromStar.normalize

/-- `CompanionStar.getParticleForce(particlePosition)`: gravity plus wind. -/
def getParticleForce (s : CompanionState) (particlePosition : Vec3) : Vec3 :=
  Vec3.add (calculateGravitationalForce s particlePosition)
    (calculateWindForce s particlePosition)

/-- Argument record of `CompanionStar.setParameters`; a `none` field is an
absent (`undefined`) option. -/
structure ParamUpdate where
  mass : Option ℝ := none
  temperature : Option ℝ := none
  orbitalRadius : Option ℝ := none
  orbitalVelocity : Option ℝ := none
  windVelocity : Option ℝ := none
  windDensity : Option ℝ := none
  gravitationalStrength : Option ℝ := none
  hawkingRadiationIntensity : Option ℝ := none
  enableWind : Option Bool := none
  enableGravity : Option Bool := none
  enableQuantumEffects : Option Bool := none

/-- `CompanionStar.setParameters(params)`: each provided option is assigned in
source order, with derived quantities recomputed exactly where the source
recomputes them.  No option is validated and no error path exists. -/
def setParameters (s : CompanionState) (u : ParamUpdate) : CompanionState :=
  let s1 := match u.mass with
    | none => s
    | some m =>
        { s with mass := m
                 influenceRadius := calculateHillRadius m s.blackHoleMass s.orbitalRadius }
  let s2 := match u.temperature with
    | none => s1
    | some t => { s1 with temperature := t }
  let s3 := match u.orbitalRadius with
    | none => s2
    | some r =>
        let v := calculateOrbitalVelocity s2.blackHoleMass r
        { s2 with orbitalRadius := r
                  orbitalVelocity := v
                  influenceRadius := calculateHillRadius s2.mass s2.blackHoleMass r
                  position := orbitalPosition s2.angle s2.inclination r
                  velocity := orbitalVelocityVec s2.angle s2.inclination v }
  let s4 := match u.orbitalVelocity with
    | none => s3
    | some v => { s3 with orbitalVelocity := v }
  let s5 := match u.windVelocity with
    | none => s4
    | some w => { s4 with windVelocity := w }
  let s6 := match u.windDensity with
    | none => s5
    | some w => { s5 with windDensity := w }
  let s7 := match u.gravitationalStrength with
    | none => s6
    | some g => { s6 with gravitationalStrength := g }
  let s8 := match u.hawkingRadiationIntensity with
    | none => s7
    | some h => { s7 with hawkingRadiationIntensity := h }
  let s9 := match u.enableWind with
    | none => s8
    | some b => { s8 with enableWind := b }
  let s10 := match u.enableGravity with
    | none => s9
    | some b => { s9 with enableGravity := b }
  match u.enableQuantumEffects with
  | none => s10
  | some b => { s10 with enableQuantumEffects := b }

/-- The companion star built by the constructor with its default parameters
(`new CompanionStar(scene, 66e9, {})`, the configuration used by the
simulations). -/
def defaultCompanion : CompanionState :=
  let bh : ℝ := 66e9
  let v := calculateOrbitalVelocity bh 250
  { blackHoleMass := bh
    mass := 40
    radius := 15
    temperature := 40000
    orbitalRadius := 250
    orbitalVelocity := v
    windVelocity := 2000
    windDensity := 1
    gravitationalStrength := 1
    influenceRadius := calculateHillRadius 40 bh 250
    hawkingRadiationIntensity := 0.5
    angle := 0
    inclination := 0
    eccentricity := 0
    enableWind := true
    enableGravity := true
    enableQuantumEffects := true
    position := orbitalPosition 0 0 250
    velocity := orbitalVelocityVec 0 0 v }

end CompanionStar

/-! ## OrbitalMechanics (`src/unnamed/part_004`) -/

namespace OrbitalMechanics

/-- `OrbitalMechanics.calculateHillSphere(bodyMass, orbitalRadius)`:
`orbitalRadius * (bodyMass / (3 * blackHoleMass)) ^ (1/3)`. -/
def calculateHillSphere (blackHoleMass bodyMass orbitalRadius : ℝ) : ℝ :=
  orbitalRadius * (bodyMass / (3 * blackHoleMass)) ^ ((1 : ℝ) / 3)

end OrbitalMechanics

/-! ## Star, the tidally disrupted body (`src/src/physics/Star.js`, first class) -/

/-- The physics fields of a `Star` object (mesh/glow visuals elided). -/
structure StarState where
  blackHoleMass : ℝ
  mass : ℝ
  radius : ℝ
  position : Vec3
  velocity : Vec3
  isDisrupted : Bool
  tidalRadius : ℝ
  stretchFactor : Vec3
  health : ℝ

namespace Star

/-- `Star.calculateTidalRadius`: `min(schwarzschildRadius(13) * 3 *
(blackHoleMass / mass) ^ (1/3), 80)`. -/
def calculateTidalRadius (blackHoleMass mass : ℝ) : ℝ :=
  min (13 * 3 * (blackHoleMass / mass) ^ ((1 : ℝ) / 3)) 80

/-- `Star.calculateGravity(distance)`: the sub-0.1 distance floor, then
`G * M / d^2` with `G = 0.1`. -/
def calculateGravity (blackHoleMass distance : ℝ) : ℝ :=
  let d := if distance < 0.1 then 0.1 else distance
  0.1 * blackHoleMass / d ^ 2

/-- `Star.update(deltaTime)`: gravity integration, tidal stretching, health
loss and the disruption trigger.  Mesh/color updates are elided. -/
def update (s : StarState) (deltaTime : ℝ) : StarState :=
  let distance := s.position.length
  let gravity := calculateGravity s.blackHoleMass distance
  let direction := Vec3.smul (-1) s.position.normalize
  let acceleration := Vec3.smul gravity direction
  let velocity1 := Vec3.add s.velocity (Vec3.smul deltaTime acceleration)
  let position1 := Vec3.add s.position (Vec3.smul deltaTime velocity1)
  if distance < s.tidalRadius ∧ s.isDisrupted = false then
    let stretchAmount := max 0 (1 - distance / s.tidalRadius)
    let health1 := s.health - stretchAmount * 0.01
    { s with position := position1
             velocity := velocity1
             stretchFactor := ⟨1 + stretchAmount * 3,
                               1 / Real.sqrt (1 + stretchAmount * 3),
                               1 / Real.sqrt (1 + stretchAmount * 3)⟩
             health := health1
             isDisrupted := if health1 < 0.3 then true else false }
  else
    { s with position := position1, velocity := velocity1 }

/-- The star built by the constructor (`new Star(scene, 66e9)`). -/
def defaultStar : StarState :=
  { blackHoleMass := 66e9
    mass := 1
    radius := 1
    position := ⟨300, 0, 0⟩
    velocity := ⟨-0.5, 0, 0.3⟩
    isDisrupted := false
    tidalRadius := calculateTidalRadius 66e9 1
    stretchFactor := ⟨1, 1, 1⟩
    health := 1 }

end Star

/-! ## StellarDebris (`src/unnamed/part_005`) -/

/-- One debris particle of `StellarDebris.particles`. -/
structure DebrisParticle where
  position : Vec3
  velocity : Vec3
  angularMomentum : Vec3
  temperature : ℝ
  age : ℝ
  maxAge : ℝ
  mass : ℝ
  inStream : Bool
  circularized : Bool

/-- The state fields of `StellarDebris` touched by generation and update
(the instanced mesh is elided).  `particles` is ordered oldest first
(`Array.push` appends). -/
structure DebrisSystem where
  particles : List DebrisParticle
  particleCount : ℕ

/-- Snapshot handed to `generateDebrisFromStar` by `Star.getState()`. -/
structure StarSnapshot where
  position : Vec3
  velocity : Vec3
  mass : ℝ

namespace StellarDebris

/-- `this.ISCO = 18`. -/
def ISCO : ℝ := 18

/-- `this.eventHorizon = 13`. -/
def eventHorizon : ℝ := 13

/-- `this.maxParticles = 5000`. -/
def maxParticles : ℕ := 5000

/-- `StellarDebris.calculateOrbitalVelocity(radius)`: radius clamped up to the
ISCO, then `sqrt(G * M / radius)` with `G = 0.1`. -/
def calculateOrbitalVelocity (blackHoleMass radius : ℝ) : ℝ :=
  let r := if radius < ISCO then ISCO else radius
  Real.sqrt (0.1 * blackHoleMass / r)

/-- One particle built inside the `generateDebrisFromStar` loop; `rnd j` is
the `j`-th `Math.random()` draw of this iteration, in source order. -/
def mkDebrisParticle (star : StarSnapshot) (rnd : ℕ → ℝ) : DebrisParticle :=
  let spreadFactor := (rnd 0 - 0.5) * 10
  let perpVector := (Vec3.normalize ⟨rnd 1 - 0.5, rnd 2 - 0.5, rnd 3 - 0.5⟩)
  let particlePos := Vec3.add star.position (Vec3.smul spreadFactor perpVector)
  let velocitySpread : Vec3 :=
    ⟨(rnd 4 - 0.5) * 0.2, (rnd 5 - 0.5) * 0.2, (rnd 6 - 0.5) * 0.2⟩
  let particleVel := Vec3.add star.velocity velocitySpread
  { position := particlePos
    velocity := particleVel
    angularMomentum := Vec3.cross particlePos particleVel
    temperature := 0.3
    age := 0
    maxAge := 1000 + rnd 7 * 500
    mass := star.mass / 200
    inStream := true
    circularized := false }

/-- The `for (let i = 0; i < debrisCount; i++)` loop body of
`generateDebrisFromStar`: stop when the pool holds `maxParticles`, otherwise
push one new particle and continue. -/
def generateLoop (star : StarSnapshot) (rng : ℕ → ℕ → ℝ) :
    ℕ → ℕ → DebrisSystem → DebrisSystem
  | 0, _, st => st
  | Nat.succ n, k, st =>
      if maxParticles ≤ st.particleCount then st
      else
        generateLoop star rng n (k + 1)
          { particles := st.particles ++ [mkDebrisParticle star (rng k)]
            particleCount := st.particleCount + 1 }

/-- `StellarDebris.generateDebrisFromStar(starState)` with
`debrisCount = 200`; `rng k j` is the `j`-th draw of iteration `k`. -/
def generateDebrisFromStar (star : StarSnapshot) (rng : ℕ → ℕ → ℝ)
    (st : DebrisSystem) : DebrisSystem :=
  generateLoop star rng 200 0 st

/-- The `inStream && !circularized` block of `StellarDebris.update`.
`p.position.normalize()` mutates the stored position in place (three.js
`normalize` divides `this` by its length), so the block replaces the
position with its unit vector whether or not the transition fires.
`distance` was read before the mutation. -/
def streamPhase (blackHoleMass distance : ℝ) (p : DebrisParticle) : DebrisParticle :=
  if p.inStream && !p.circularized then
    let posN := p.position.normalize
    let radialVelocity := Vec3.dot p.velocity posN
    if |radialVelocity| < 0.1 ∧ distance > ISCO * 1.5 then
      let orbitalSpeed := calculateOrbitalVelocity blackHoleMass distance
      let tangent := (Vec3.cross p.angularMomentum posN).normalize
      { p with position := posN
               circularized := true
               inStream := false
               velocity := Vec3.smul orbitalSpeed tangent }
    else
      { p with position := posN }
  else p

/-- The `if (p.circularized)` block of `StellarDebris.update`: angular
momentum decays, velocity is rebuilt for a circular orbit at the current
(possibly just-normalized) radius. -/
def viscousPhase (blackHoleMass : ℝ) (p : DebrisParticle) : DebrisParticle :=
  if p.circularized then
    let angularMomentum1 := Vec3.smul (1 - 0.0001) p.angularMomentum
    let currentRadius := p.position.length
    let newOrbitalSpeed := calculateOrbitalVelocity blackHoleMass currentRadius
    let tangent := (Vec3.cross angularMomentum1 p.position).normalize
    { p with angularMomentum := angularMomentum1
             velocity := Vec3.smul newOrbitalSpeed tangent }
  else p

/-- The mutation applied by `StellarDebris.update` to a particle that passes
the age and event-horizon checks: gravity from the pre-mutation position,
the stream phase (with its in-place normalization), the viscous phase,
velocity/position integration, and the temperature update. -/
def debrisAdvance (blackHoleMass deltaTime : ℝ) (p : DebrisParticle) :
    DebrisParticle :=
  let distance := p.position.length
  let gravity := 0.1 * blackHoleMass / distance ^ 2
  let gravAccel := Vec3.smul gravity (Vec3.smul (-1) p.position.normalize)
  let p1 := streamPhase blackHoleMass distance { p with age := p.age + 1 }
  let p2 := viscousPhase blackHoleMass p1
  let velocity1 := Vec3.add p2.velocity (Vec3.smul deltaTime gravAccel)
  let position1 := Vec3.add p2.position (Vec3.smul deltaTime velocity1)
  let tempFactor := max 0 (1 - (distance - ISCO) / 100)
  let temperature1 := 0.3 + tempFactor * 1.2
  let temperature2 :=
    if !p2.circularized && p2.inStream then temperature1 + 0.3 else temperature1
  { p2 with position := position1
            velocity := velocity1
            temperature := temperature2 }

/-- The per-particle body of `StellarDebris.update`: the age is bumped, the
particle is spliced out (`none`) on age expiry or on falling inside the
event horizon, and otherwise mutated by `debrisAdvance`. -/
def debrisStep (blackHoleMass deltaTime : ℝ) (p : DebrisParticle) :
    Option DebrisParticle :=
  if p.age + 1 > p.maxAge then none else
  if p.position.length < eventHorizon then none else
  some (debrisAdvance blackHoleMass deltaTime p)

/-- `StellarDebris.update(deltaTime)` on the particle pool: the reverse
`splice` loop keeps order and is a `filterMap` of `debrisStep`. -/
def update (blackHoleMass deltaTime : ℝ) (particles : List DebrisParticle) :
    List DebrisParticle :=
  particles.filterMap (debrisStep blackHoleMass deltaTime)

end StellarDebris

/-! ## Disk-particle system (`src/src/components/Simulation1.jsx`)

`updateDiskParticles` mutates each entry of `diskData` in place and pushes
launch events into a separate `launchedParticles` array; the disk pool itself
is only written through indices, never grown or shrunk.  Rendering work
(instance matrices, colors, trails, `draggedHeight`) is elided; every field
of the particle record that the physics reads or writes is kept.
-/

/-- One entry of `diskData` (physics fields). -/
structure DiskParticle where
  angle : ℝ
  radius : ℝ
  initialRadius : ℝ
  height : ℝ
  baseHeight : ℝ
  orbitalPlaneAngle : ℝ
  frameDragAccumulated : ℝ
  speed : ℝ
  baseSpeed : ℝ
  verticalPhase : ℝ
  infallSpeed : ℝ
  vRadial : ℝ
  vTangential : ℝ
  vVertical : ℝ
  heatFromViscosity : ℝ
  density : ℝ
  mass : ℝ
  isInISCO : Bool
  timeInISCO : ℝ

/-- The members of the `params` state object read by the disk physics. -/
structure SimParams where
  blackHoleMass : ℝ
  spinParameter : ℝ
  diskRotationSpeed : ℝ
  magneticFieldStrength : ℝ
  jetLaunchRate : ℝ
  spiralStrength : ℝ
  showCompanionStar : Bool
  showFrameDragging : Bool

/-- The `Math.random()` draws one disk particle may consume in one tick. -/
structure DiskRng where
  launchDraw : ℝ
  launchAngle : ℝ
  fallAngle : ℝ

namespace DiskSim

/-- `getSchwarzschildRadius(mass)`: `mass / 66 * 10`. -/
def getSchwarzschildRadius (mass : ℝ) : ℝ := mass / 66 * 10

/-- `getISCO(mass, spin)`: `rs * (6 - 5 * spin) / 6`. -/
def getISCO (mass spin : ℝ) : ℝ :=
  getSchwarzschildRadius mass * (6 - 5 * spin) / 6

/-- `getFrameDraggingRate(r, spin)`: `(2 * a * rs^3) / r^3 * 0.01` with
`rs = getSchwarzschildRadius(params.blackHoleMass)`. -/
def getFrameDraggingRate (blackHoleMass r spin : ℝ) : ℝ :=
  2 * spin * getSchwarzschildRadius blackHoleMass ^ 3 / r ^ 3 * 0.01

/-- `keplerianSpeed` assigned to `speed` when a disk particle is seeded:
`0.007 * (98 / radius) ^ 1.5`. -/
def keplerianSpeed (radius : ℝ) : ℝ := 0.007 * (98 / radius) ^ ((1.5 : ℝ))

/-- The companion force resolved into the particle's cylindrical frame. -/
structure ForceCyl where
  radial : ℝ
  tangential : ℝ
  vertical : ℝ

/-- The world position a disk particle is given before querying the
companion force: `(cos(angle) * radius, height, sin(angle) * radius)`. -/
def particlePos (p : DiskParticle) : Vec3 :=
  ⟨Real.cos p.angle * p.radius, p.height, Real.sin p.angle * p.radius⟩

/-- The companion-force decomposition of `updateDiskParticles` (both loops):
query `getParticleForce` and, when the force is nonzero, project it onto the
radial/tangential directions of the particle's XZ position (two.js
`Vector2.normalize` with the same `length || 1` fallback). -/
def forceDecomp (P : SimParams) (comp : Option CompanionState)
    (p : DiskParticle) : ForceCyl :=
  if P.showCompanionStar then
    match comp with
    | none => ⟨0, 0, 0⟩
    | some c =>
        let pos := particlePos p
        let force := CompanionStar.getParticleForce c pos
        if 0 < force.length then
          let len2 := Real.sqrt (pos.x ^ 2 + pos.z ^ 2)
          let d := if len2 = 0 then 1 else len2
          let radialDirX := pos.x / d
          let radialDirY := pos.z / d
          let tangentialDirX := -radialDirY
          let tangentialDirY := radialDirX
          ⟨force.x * radialDirX + force.z * radialDirY,
           force.x * tangentialDirX + force.z * tangentialDirY,
           force.y⟩
        else ⟨0, 0, 0⟩
  else ⟨0, 0, 0⟩

/-- `baseRadialAccel`: `-p.infallSpeed * params.spiralStrength * 0.018 * 60`. -/
def baseRadialAccel (P : SimParams) (p : DiskParticle) : ℝ :=
  -p.infallSpeed * P.spiralStrength * 0.018 * 60

/-- Acceleration magnitude of one particle in the adaptive-time-step scan. -/
def diskAccelMagnitude (P : SimParams) (comp : Option CompanionState)
    (p : DiskParticle) : ℝ :=
  let f := forceDecomp P comp p
  let totalRadialAccel := |(baseRadialAccel P p + f.radial * 30) / p.mass|
  let totalTangentialAccel := |f.tangential * 1.2 / p.mass|
  let totalVerticalAccel := |f.vertical * 18 / p.mass|
  Real.sqrt (totalRadialAccel ^ 2 + totalTangentialAccel ^ 2 +
    totalVerticalAccel ^ 2)

/-- `maxAccelMagnitude`: running `Math.max` over the pool, starting at 0. -/
def maxAccelMagnitude (P : SimParams) (comp : Option CompanionState)
    (ps : List DiskParticle) : ℝ :=
  ps.foldl (fun m p => max m (diskAccelMagnitude P comp p)) 0

/-- `baseTimestep = 0.016` (~60 FPS). -/
def baseTimestep : ℝ := 0.016

/-- `courantFactor = 0.3`. -/
def courantFactor : ℝ := 0.3

/-- `characteristicLength = 1.0`. -/
def characteristicLength : ℝ := 1.0

/-- The adaptive time step (CFL condition) of `updateDiskParticles`. -/
def adaptiveDt (maxAccel : ℝ) : ℝ :=
  if 0.1 < maxAccel then
    min baseTimestep
      (max (courantFactor * Real.sqrt (characteristicLength / maxAccel)) 0.001)
  else baseTimestep

/-- Radial velocity after integration and damping:
`(vRadial + totalRadialAccel * dt) * 0.95`. -/
def diskRadialVelocity (P : SimParams) (comp : Option CompanionState)
    (dt : ℝ) (p : DiskParticle) : ℝ :=
  (p.vRadial + (baseRadialAccel P p + (forceDecomp P comp p).radial * 30)
    / p.mass * dt) * 0.95

/-- Radius after position integration, before the ISCO/capture checks. -/
def diskIntegratedRadius (P : SimParams) (comp : Option CompanionState)
    (dt : ℝ) (p : DiskParticle) : ℝ :=
  p.radius + diskRadialVelocity P comp dt p * dt

/-- The per-particle body of the physics-integration loop of
`updateDiskParticles`.  Returns the mutated particle and whether a jet
launch fired.  `iscoRadius` is the caller's `getISCO` value, `dt` the
adaptive time step, `rng` the particle's random draws. -/
def diskStep (P : SimParams) (comp : Option CompanionState)
    (iscoRadius dt : ℝ) (rng : DiskRng) (p : DiskParticle) :
    DiskParticle × Bool :=
  let baseTangentialVel := p.speed * P.diskRotationSpeed * 60
  let f := forceDecomp P comp p
  let totalTangentialAccel := f.tangential * 1.2 / p.mass
  let totalVerticalAccel := (0 + f.vertical * 18) / p.mass
  let vRadial1 := diskRadialVelocity P comp dt p
  let vTangential1 := baseTangentialVel + totalTangentialAccel
  let vVertical1 := (p.vVertical + totalVerticalAccel * dt) * 0.90
  let radius1 := diskIntegratedRadius P comp dt p
  let angle1 := p.angle + vTangential1 / (radius1 + 1) * dt
  let height1 := max (-15) (min 15 (p.height + vVertical1 * dt))
  let frameDragRate := getFrameDraggingRate P.blackHoleMass radius1 P.spinParameter
  let fdStep := frameDragRate * (if P.showFrameDragging then 1 else 0)
  let orbitalPlaneAngle1 := p.orbitalPlaneAngle + fdStep
  let frameDragAccumulated1 := p.frameDragAccumulated + fdStep
  let inISCO : Prop := iscoRadius - 3 ≤ radius1 ∧ radius1 ≤ iscoRadius + 3
  let afterISCO : ℝ × ℝ × ℝ × ℝ × Bool :=
    if inISCO then
      let timeInISCO1 := p.timeInISCO + 1
      let heat1 := min 1 (timeInISCO1 / 50)
      let launchProbability := 0.015 * P.jetLaunchRate * (1 + heat1)
      if rng.launchDraw < launchProbability then
        (p.initialRadius, rng.launchAngle * (2 * Real.pi), 0, 0, true)
      else (radius1, angle1, timeInISCO1, heat1, false)
    else (radius1, angle1, 0, 0, false)
  let radius2 := afterISCO.1
  let angle2 := afterISCO.2.1
  let timeInISCO2 := afterISCO.2.2.1
  let heat2 := afterISCO.2.2.2.1
  let launched := afterISCO.2.2.2.2
  let afterFall : ℝ × ℝ × ℝ :=
    if radius2 < iscoRadius - 3 then
      (p.initialRadius, rng.fallAngle * (2 * Real.pi), 0)
    else (radius2, angle2, frameDragAccumulated1)
  ({ p with
      radius := afterFall.1
      angle := afterFall.2.1
      height := height1
      orbitalPlaneAngle := orbitalPlaneAngle1
      frameDragAccumulated := afterFall.2.2
      vRadial := vRadial1
      vTangential := vTangential1
      vVertical := vVertical1
      isInISCO := if inISCO then true else false
      timeInISCO := timeInISCO2
      heatFromViscosity := heat2
      verticalPhase := p.verticalPhase + 0.018 },
   launched)

/-- `updateDiskParticles`: one adaptive-step scan, then the in-place
integration of every particle.  Returns the pool and `launchesThisFrame`. -/
def updateDiskParticles (P : SimParams) (comp : Option CompanionState)
    (iscoRadius : ℝ) (rng : ℕ → DiskRng) (ps : List DiskParticle) :
    List DiskParticle × ℕ :=
  let dt := adaptiveDt (maxAccelMagnitude P comp ps)
  let stepped := ps.mapIdx (fun i p => diskStep P comp iscoRadius dt (rng i) p)
  (stepped.map Prod.fst, (stepped.filter (fun q => q.2 = true)).length)

end DiskSim

/-! ## Shared sample inputs for witness instantiations -/

/-- A companion-disabled parameter set (all multipliers at their UI defaults). -/
def sampleParams : SimParams :=
  { blackHoleMass := 66
    spinParameter := 0.7
    diskRotationSpeed := 1
    magneticFieldStrength := 1
    jetLaunchRate := 1
    spiralStrength := 1
    showCompanionStar := false
    showFrameDragging := true }

/-- A fixed random-draw record. -/
def sampleRng : DiskRng := { launchDraw := 0.5, launchAngle := 0.5, fallAngle := 0.25 }

/-- A companion placed at `(10, 0, 0)` with a small influence radius and
stellar radius, for querying forces outside both ranges. -/
def sampleCompanionA : CompanionState :=
  { CompanionStar.defaultCompanion with
      position := ⟨10, 0, 0⟩
      influenceRadius := 5
      radius := 1 }

/-- A companion placed at `(10, 0, 0)` with a large influence radius and
stellar radius, for querying forces inside both ranges. -/
def sampleCompanionB : CompanionState :=
  { CompanionStar.defaultCompanion with
      position := ⟨10, 0, 0⟩
      influenceRadius := 40
      radius := 20 }

/-- A debris particle near apocenter: radial velocity 0 at radius 30. -/
def sampleDebrisParticle : DebrisParticle :=
  { position := ⟨30, 0, 0⟩
    velocity := ⟨0, 0, 2⟩
    angularMomentum := ⟨0, -60, 0⟩
    temperature := 0.3
    age := 0
    maxAge := 100
    mass := 1
    inStream := true
    circularized := false }

/-- An in-stream debris particle at radius 20 with no velocity. -/
def sampleDebrisStream : DebrisParticle :=
  { position := ⟨20, 0, 0⟩
    velocity := ⟨0, 0, 0⟩
    angularMomentum := ⟨0, 0, 0⟩
    temperature := 0.3
    age := 0
    maxAge := 50
    mass := 1
    inStream := true
    circularized := false }

/-- A circularized debris particle. -/
def sampleDebrisCirc : DebrisParticle :=
  { sampleDebrisParticle with inStream := false, circularized := true }

/-- A star snapshot feeding debris generation. -/
def sampleStarSnapshot : StarSnapshot :=
  { position := ⟨50, 0, 0⟩, velocity := ⟨-1, 0, 0⟩, mass := 1 }

/-- A fixed random stream for debris generation. -/
def sampleDebrisRng : ℕ → ℕ → ℝ := fun _ _ => 0.7

/-- A disk particle already well inside a 30-unit ISCO, with no velocity and
no viscous infall, so its integrated radius stays at 5. -/
def sampleDiskParticle : DiskParticle :=
  { angle := 0
    radius := 5
    initialRadius := 50
    height := 0
    baseHeight := 0
    orbitalPlaneAngle := 0
    frameDragAccumulated := 0.2
    speed := 0.007
    baseSpeed := 0.007
    verticalPhase := 0
    infallSpeed := 0
    vRadial := 0
    vTangential := 0
    vVertical := 0
    heatFromViscosity := 0
    density := 1
    mass := 1
    isInISCO := false
    timeInISCO := 0 }

/-- A disk particle seeded at radius 25 and azimuth `π/2` (world position
`(0, 0, 25)`), with the Keplerian seed speed of its radius. -/
def sampleDiskParticleC : DiskParticle :=
  { angle := Real.pi / 2
    radius := 25
    initialRadius := 60
    height := 0
    baseHeight := 0
    orbitalPlaneAngle := 0
    frameDragAccumulated := 0
    speed := DiskSim.keplerianSpeed 25
    baseSpeed := DiskSim.keplerianSpeed 25
    verticalPhase := 0
    infallSpeed := 0.012 * (1 / 25)
    vRadial := 0
    vTangential := 0
    vVertical := 0
    heatFromViscosity := 0
    density := 1
    mass := 1
    isInISCO := false
    timeInISCO := 0 }

/-- The parameter set with the companion star enabled. -/
def sampleParamsC : SimParams := { sampleParams with showCompanionStar := true }

/-- A heavy companion reconfigured to orbital radius 25 at angle 0 (world
position `(25, 0, 0)`) with wind disabled.  Its influence radius 50 is the
value `calculateHillRadius` assigns for mass 1584, central mass 66e9 and
orbital radius 25 (see `sampleCompanionC_influence`). -/
def sampleCompanionC : CompanionState :=
  { CompanionStar.defaultCompanion with
      mass := 1584
      orbitalRadius := 25
      position := ⟨25, 0, 0⟩
      influenceRadius := 50
      enableWind := false }

end

/-! # Basic vector lemmas -/

namespace Vec3

theorem length_nonneg (a : Vec3) : 0 ≤ a.length := Real.sqrt_nonneg _

theorem length_smul (c : ℝ) (a : Vec3) : (smul c a).length = |c| * a.length := by
  unfold length smul
  rw [show (c * a.x) ^ 2 + (c * a.y) ^ 2 + (c * a.z) ^ 2
        = c ^ 2 * (a.x ^ 2 + a.y ^ 2 + a.z ^ 2) by ring]
  rw [Real.sqrt_mul (sq_nonneg c), Real.sqrt_sq_eq_abs]

theorem length_eq_zero_iff (a : Vec3) : a.length = 0 ↔ a = ⟨0, 0, 0⟩ := by
  unfold length
  constructor
  · intro h
    have hle : a.x ^ 2 + a.y ^ 2 + a.z ^ 2 ≤ 0 := Real.sqrt_eq_zero'.mp h
    have hx : a.x = 0 := by nlinarith [sq_nonneg a.x, sq_nonneg a.y, sq_nonneg a.z]
    have hy : a.y = 0 := by nlinarith [sq_nonneg a.x, sq_nonneg a.y, sq_nonneg a.z]
    have hz : a.z = 0 := by nlinarith [sq_nonneg a.x, sq_nonneg a.y, sq_nonneg a.z]
    ext <;> simp [hx, hy, hz]
  · intro h; subst h; simp [Real.sqrt_eq_zero']

theorem length_normalize (a : Vec3) (h : a.length ≠ 0) : a.normalize.length = 1 := by
  unfold normalize
  rw [if_neg h, length_smul]
  have hpos : 0 < a.length := lt_of_le_of_ne (length_nonneg a) (Ne.symm h)
  rw [abs_of_pos (by positivity)]
  field_simp

theorem length_sub_comm (a b : Vec3) : (sub a b).length = (sub b a).length := by
  unfold length sub
  ring_nf

theorem smul_smul (c d : ℝ) (a : Vec3) : smul c (smul d a) = smul (c * d) a := by
  unfold smul; ext <;> dsimp <;> ring

theorem length_axis (c : ℝ) (h : 0 ≤ c) : (⟨c, 0, 0⟩ : Vec3).length = c := by
  unfold length
  rw [show c ^ 2 + 0 ^ 2 + 0 ^ 2 = c ^ 2 by ring, Real.sqrt_sq h]

theorem add_zero_right (a : Vec3) : add a zero = a := by
  unfold add zero
  ext <;> dsimp <;> ring

end Vec3

/-! # Claims -/

namespace DiskSim

/-- C2.  For every tick and configuration the adaptive step satisfies
`0.001 ≤ dt ≤ 0.016`; above the `0.1` noise floor it equals
`min(dt_base, courant · sqrt(L_char / a_max))` clamped below by `dt_min`,
and at or below the floor it is `dt_base` unchanged. -/
theorem claim2_adaptive_dt (P : SimParams) (comp : Option CompanionState)
    (ps : List DiskParticle) :
    (0.001 ≤ adaptiveDt (maxAccelMagnitude P comp ps) ∧
      adaptiveDt (maxAccelMagnitude P comp ps) ≤ baseTimestep) ∧
    (0.1 < maxAccelMagnitude P comp ps →
      adaptiveDt (maxAccelMagnitude P comp ps) =
        max (min baseTimestep (courantFactor *
          Real.sqrt (characteristicLength / maxAccelMagnitude P comp ps))) 0.001) ∧
    (maxAccelMagnitude P comp ps ≤ 0.1 →
      adaptiveDt (maxAccelMagnitude P comp ps) = baseTimestep) := by
  generalize maxAccelMagnitude P comp ps = a
  unfold adaptiveDt baseTimestep courantFactor characteristicLength
  split_ifs with h
  · refine ⟨⟨le_min (by norm_num) (le_max_right _ _), min_le_left _ _⟩, ?_, ?_⟩
    · intro _
      rw [min_max_distrib_left]
      have : min (0.016 : ℝ) 0.001 = 0.001 := by norm_num
      rw [this]
    · intro hle; exact absurd h (not_lt.mpr hle)
  · exact ⟨⟨by norm_num, le_refl _⟩, fun hc => absurd hc h, fun _ => rfl⟩

/-- Witness for C2: an empty pool has zero maximum acceleration, below the
noise floor, so the step is the base time step. -/
theorem claim2_adaptive_dt_witness :
    adaptiveDt (maxAccelMagnitude sampleParams none []) = baseTimestep :=
  (claim2_adaptive_dt sampleParams none []).2.2
    (by simp [maxAccelMagnitude]; norm_num)

end DiskSim

namespace Star

/-- C5.  `Star.update` never increases structural integrity; the disruption
flag, once true, is never cleared by `update`, and a tick that drives
integrity below `0.3` raises it; the tidal radius is
`3 · r_s · (M_central / M_body)^(1/3)` capped at 80 (with `r_s = 13`). -/
theorem claim5_tidal_integrity :
    (∀ (s : StarState) (dt : ℝ), (update s dt).health ≤ s.health) ∧
    (∀ (s : StarState) (dt : ℝ), s.isDisrupted = true →
      (update s dt).isDisrupted = true) ∧
    (∀ (s : StarState) (dt : ℝ), (s.health < 0.3 → s.isDisrupted = true) →
      ((update s dt).health < 0.3 → (update s dt).isDisrupted = true)) ∧
    (∀ blackHoleMass mass : ℝ, calculateTidalRadius blackHoleMass mass =
      min (3 * 13 * (blackHoleMass / mass) ^ ((1 : ℝ) / 3)) 80) := by
  refine ⟨?_, ?_, ?_, ?_⟩
  · intro s dt
    unfold update
    dsimp only
    split_ifs with h hcrit
    · dsimp only
      nlinarith [le_max_left (0 : ℝ) (1 - s.position.length / s.tidalRadius)]
    · dsimp only
      nlinarith [le_max_left (0 : ℝ) (1 - s.position.length / s.tidalRadius)]
    · exact le_refl _
  · intro s dt hd
    unfold update
    dsimp only
    split_ifs with h hcrit
    · exact absurd h.2 (by simp [hd])
    · exact absurd h.2 (by simp [hd])
    · exact hd
  · intro s dt hinv
    unfold update
    dsimp only
    split_ifs with h hcrit
    · intro _; rfl
    · intro hlow
      dsimp only at hlow
      exact absurd hlow hcrit
    · intro hlow
      dsimp only at hlow
      exact hinv hlow
  · intro blackHoleMass mass
    unfold calculateTidalRadius
    norm_num

end Star

/-- Witness for C5: the freshly constructed star (integrity 1, not disrupted)
and a disrupted copy, stepped once at the default frame time. -/
theorem claim5_tidal_integrity_witness :
    (Star.update Star.defaultStar 0.016).health ≤ Star.defaultStar.health ∧
    (Star.update { Star.defaultStar with isDisrupted := true } 0.016).isDisrupted = true ∧
    ((Star.update Star.defaultStar 0.016).health < 0.3 →
      (Star.update Star.defaultStar 0.016).isDisrupted = true) ∧
    Star.calculateTidalRadius 66e9 1 =
      min (3 * 13 * ((66e9 : ℝ) / 1) ^ ((1 : ℝ) / 3)) 80 :=
  ⟨Star.claim5_tidal_integrity.1 Star.defaultStar 0.016,
   Star.claim5_tidal_integrity.2.1 _ 0.016 rfl,
   Star.claim5_tidal_integrity.2.2.1 Star.defaultStar 0.016
     (fun h => absurd h (by simp [Star.defaultStar]; norm_num)),
   Star.claim5_tidal_integrity.2.2.2 66e9 1⟩

/-- C10.  The two Hill-radius computations disagree: for the same body mass,
central mass and orbital radius, `CompanionStar.calculateHillRadius` is
exactly 1000 times `OrbitalMechanics.calculateHillSphere`, because the
former divides the central mass by `1e9`. -/
theorem claim10_hill_ratio (mass blackHoleMass orbitalRadius : ℝ)
    (hm : 0 < mass) (hM : 0 < blackHoleMass) :
    CompanionStar.calculateHillRadius mass blackHoleMass orbitalRadius =
      1000 * OrbitalMechanics.calculateHillSphere blackHoleMass mass orbitalRadius := by
  unfold CompanionStar.calculateHillRadius OrbitalMechanics.calculateHillSphere
  have harg : mass / (blackHoleMass / 1e9) / 3 = 1e9 * (mass / (3 * blackHoleMass)) := by
    field_simp
    ring
  rw [harg]
  have hy : (0 : ℝ) ≤ mass / (3 * blackHoleMass) := by positivity
  rw [Real.mul_rpow (by norm_num) hy]
  have h1000 : ((1e9 : ℝ)) ^ ((1 : ℝ) / 3) = 1000 := by
    rw [show (1e9 : ℝ) = (1000 : ℝ) ^ (3 : ℕ) by norm_num,
      ← Real.rpow_natCast (1000 : ℝ) 3,
      ← Real.rpow_mul (by norm_num : (0 : ℝ) ≤ 1000)]
    norm_num
  rw [h1000]
  ring

/-- Witness for C10: the default companion configuration
(mass 40, central mass 66e9, orbital radius 250). -/
theorem claim10_hill_ratio_witness :
    CompanionStar.calculateHillRadius 40 66e9 250 =
      1000 * OrbitalMechanics.calculateHillSphere 66e9 40 250 :=
  claim10_hill_ratio 40 66e9 250 (by norm_num) (by norm_num)

/-- C7.  Companion gravity is the zero vector beyond the influence radius and
otherwise a positive multiple of the vector toward the companion with
magnitude `mass · gravitationalStrength / (d² + 1)` (times the fixed 0.001
scale); the wind is the zero vector beyond twice the stellar radius and
otherwise a positive multiple of the vector away from the companion with
magnitude `windDensity · windVelocity / (d² + 1)` (times the fixed 0.0001
scale). -/
theorem claim7_companion_forces (s : CompanionState) (q : Vec3) :
    (s.influenceRadius < (Vec3.sub s.position q).length →
      CompanionStar.calculateGravitationalForce s q = Vec3.zero) ∧
    (s.enableGravity = true → 0 < (Vec3.sub s.position q).length →
      (Vec3.sub s.position q).length ≤ s.influenceRadius →
      CompanionStar.calculateGravitationalForce s q =
        Vec3.smul (s.mass * s.gravitationalStrength /
            ((Vec3.sub s.position q).length * (Vec3.sub s.position q).length + 1)
            * 0.001 / (Vec3.sub s.position q).length)
          (Vec3.sub s.position q) ∧
      (CompanionStar.calculateGravitationalForce s q).length =
        |s.mass * s.gravitationalStrength /
          ((Vec3.sub s.position q).length * (Vec3.sub s.position q).length + 1) * 0.001|) ∧
    (s.radius * 2 < (Vec3.sub s.position q).length →
      CompanionStar.calculateWindForce s q = Vec3.zero) ∧
    (s.enableWind = true → 0 < (Vec3.sub s.position q).length →
      (Vec3.sub s.position q).length ≤ s.radius * 2 →
      CompanionStar.calculateWindForce s q =
        Vec3.smul (s.windDensity * s.windVelocity /
            ((Vec3.sub s.position q).length * (Vec3.sub s.position q).length + 1)
            * 0.0001 / (Vec3.sub s.position q).length)
          (Vec3.sub q s.position) ∧
      (CompanionStar.calculateWindForce s q).length =
        |s.windDensity * s.windVelocity /
          ((Vec3.sub s.position q).length * (Vec3.sub s.position q).length + 1) * 0.0001|) := by
  set d := (Vec3.sub s.position q).length with hd
  have hcomm : (Vec3.sub q s.position).length = d := by
    rw [hd]; exact Vec3.length_sub_comm q s.position
  refine ⟨?_, ?_, ?_, ?_⟩
  · intro hfar
    unfold CompanionStar.calculateGravitationalForce
    dsimp only
    by_cases hg : s.enableGravity = false
    · rw [if_pos hg]
    · rw [if_neg hg, if_pos hfar]
  · intro hg hpos hin
    have hne : d ≠ 0 := ne_of_gt hpos
    unfold CompanionStar.calculateGravitationalForce
    rw [if_neg (by simp [hg]), if_neg (not_lt.mpr hin)]
    dsimp only
    rw [← hd]
    unfold Vec3.normalize
    rw [← hd, if_neg hne, Vec3.smul_smul]
    constructor
    · congr 1
      field_simp
    · rw [Vec3.length_smul, ← hd, abs_mul]
      rw [abs_of_pos (by positivity : (0:ℝ) < 1 / d)]
      field_simp
  · intro hfar
    unfold CompanionStar.calculateWindForce
    dsimp only
    by_cases hw : s.enableWind = false
    · rw [if_pos hw]
    · rw [if_neg hw, if_pos (show s.radius * 2 < (Vec3.sub q s.position).length by
        rw [hcomm]; exact hfar)]
  · intro hw hpos hin
    have hne : d ≠ 0 := ne_of_gt hpos
    unfold CompanionStar.calculateWindForce
    rw [if_neg (by simp [hw]), if_neg (by rw [hcomm]; exact not_lt.mpr hin)]
    dsimp only
    rw [hcomm]
    unfold Vec3.normalize
    rw [hcomm, if_neg hne, Vec3.smul_smul]
    constructor
    · congr 1
      field_simp
    · rw [Vec3.length_smul, hcomm, abs_mul]
      rw [abs_of_pos (by positivity : (0:ℝ) < 1 / d)]
      field_simp

/-- Witness for C7: concrete queries from the origin against the two sample
companions at `(10, 0, 0)` (distance 10): outside a 5-unit influence radius
and a 2-unit wind range both forces vanish; inside a 40-unit influence
radius and a 40-unit wind range both take the stated form. -/
theorem claim7_companion_forces_witness :
    CompanionStar.calculateGravitationalForce sampleCompanionA ⟨0, 0, 0⟩ = Vec3.zero ∧
    CompanionStar.calculateWindForce sampleCompanionA ⟨0, 0, 0⟩ = Vec3.zero ∧
    CompanionStar.calculateGravitationalForce sampleCompanionB ⟨0, 0, 0⟩ =
      Vec3.smul (sampleCompanionB.mass * sampleCompanionB.gravitationalStrength /
          ((Vec3.sub sampleCompanionB.position ⟨0, 0, 0⟩).length *
            (Vec3.sub sampleCompanionB.position ⟨0, 0, 0⟩).length + 1) * 0.001 /
          (Vec3.sub sampleCompanionB.position ⟨0, 0, 0⟩).length)
        (Vec3.sub sampleCompanionB.position ⟨0, 0, 0⟩) ∧
    CompanionStar.calculateWindForce sampleCompanionB ⟨0, 0, 0⟩ =
      Vec3.smul (sampleCompanionB.windDensity * sampleCompanionB.windVelocity /
          ((Vec3.sub sampleCompanionB.position ⟨0, 0, 0⟩).length *
            (Vec3.sub sampleCompanionB.position ⟨0, 0, 0⟩).length + 1) * 0.0001 /
          (Vec3.sub sampleCompanionB.position ⟨0, 0, 0⟩).length)
        (Vec3.sub ⟨0, 0, 0⟩ sampleCompanionB.position) := by
  have hlen : (Vec3.sub sampleCompanionA.position ⟨0, 0, 0⟩).length = 10 := by
    show (Vec3.sub ⟨10, 0, 0⟩ ⟨0, 0, 0⟩).length = 10
    unfold Vec3.sub Vec3.length
    norm_num
    rw [show (100 : ℝ) = 10 ^ 2 by norm_num]
    exact Real.sqrt_sq (by norm_num)
  have hlenB : (Vec3.sub sampleCompanionB.position ⟨0, 0, 0⟩).length = 10 := hlen
  refine ⟨?_, ?_, ?_, ?_⟩
  · exact (claim7_companion_forces sampleCompanionA ⟨0, 0, 0⟩).1
      (by rw [hlen]; norm_num [sampleCompanionA])
  · exact (claim7_companion_forces sampleCompanionA ⟨0, 0, 0⟩).2.2.1
      (by rw [hlen]; norm_num [sampleCompanionA])
  · exact ((claim7_companion_forces sampleCompanionB ⟨0, 0, 0⟩).2.1
      rfl (by rw [hlenB]; norm_num) (by rw [hlenB]; norm_num [sampleCompanionB])).1
  · exact ((claim7_companion_forces sampleCompanionB ⟨0, 0, 0⟩).2.2.2
      rfl (by rw [hlenB]; norm_num) (by rw [hlenB]; norm_num [sampleCompanionB])).1

/-- C8 counterexample.  `setParameters({mass: -1})` on the default companion
is not rejected: the negative mass is assigned and the observable state
changes, so no prior configuration is retained and no `ConfigurationError`
exists (the function has no error path at all). -/
theorem claim8_counterexample :
    (CompanionStar.setParameters CompanionStar.defaultCompanion
      { mass := some (-1) }).mass = -1 ∧
    CompanionStar.defaultCompanion.mass = 40 ∧
    (CompanionStar.setParameters CompanionStar.defaultCompanion
      { mass := some (-1) }).mass ≠ CompanionStar.defaultCompanion.mass := by
  refine ⟨?_, rfl, ?_⟩
  · simp [CompanionStar.setParameters]
  · simp [CompanionStar.setParameters, CompanionStar.defaultCompanion]
    norm_num

/-- C8 amended.  `setParameters` validates nothing: any supplied mass,
including a negative one, is assigned unconditionally, the influence radius
is recomputed from it, and the update is total (no error is raised, the
prior configuration is not retained). -/
theorem claim8_amended_no_validation (s : CompanionState) (m : ℝ) :
    (CompanionStar.setParameters s { mass := some m }).mass = m ∧
    (CompanionStar.setParameters s { mass := some m }).influenceRadius =
      CompanionStar.calculateHillRadius m s.blackHoleMass s.orbitalRadius ∧
    (CompanionStar.setParameters s { mass := some m }).temperature = s.temperature ∧
    (CompanionStar.setParameters s { mass := some m }).orbitalRadius = s.orbitalRadius := by
  refine ⟨?_, ?_, ?_, ?_⟩ <;> simp [CompanionStar.setParameters]

/-- Witness for the amended C8: the default companion with `mass := -1`. -/
theorem claim8_amended_no_validation_witness :
    (CompanionStar.setParameters CompanionStar.defaultCompanion
      { mass := some (-1) }).mass = -1 ∧
    (CompanionStar.setParameters CompanionStar.defaultCompanion
      { mass := some (-1) }).influenceRadius =
      CompanionStar.calculateHillRadius (-1)
        CompanionStar.defaultCompanion.blackHoleMass
        CompanionStar.defaultCompanion.orbitalRadius :=
  ⟨(claim8_amended_no_validation CompanionStar.defaultCompanion (-1)).1,
   (claim8_amended_no_validation CompanionStar.defaultCompanion (-1)).2.1⟩

/-- C3 counterexample.  A debris pool already at the 5000-particle cap is
left completely unchanged by `generateDebrisFromStar`: nothing is evicted
and nothing is produced — the loop body is `break`, not an eviction. -/
theorem claim3_counterexample :
    StellarDebris.generateDebrisFromStar sampleStarSnapshot sampleDebrisRng
        { particles := List.replicate 5000 sampleDebrisParticle, particleCount := 5000 } =
      { particles := List.replicate 5000 sampleDebrisParticle, particleCount := 5000 } ∧
    (StellarDebris.generateDebrisFromStar sampleStarSnapshot sampleDebrisRng
        { particles := List.replicate 5000 sampleDebrisParticle, particleCount := 5000 }).particles.head? =
      some sampleDebrisParticle := by
  have h : StellarDebris.generateDebrisFromStar sampleStarSnapshot sampleDebrisRng
      { particles := List.replicate 5000 sampleDebrisParticle, particleCount := 5000 } =
      { particles := List.replicate 5000 sampleDebrisParticle, particleCount := 5000 } := by
    unfold StellarDebris.generateDebrisFromStar
    rw [StellarDebris.generateLoop]
    norm_num [StellarDebris.maxParticles]
  refine ⟨h, ?_⟩
  rw [h]
  rw [show (5000 : ℕ) = 4999 + 1 by norm_num, List.replicate_succ]
  rfl

/-- C3 amended.  When the debris pool is at (or beyond) its capacity cap,
`generateDebrisFromStar` stops producing: the pool is returned unchanged —
no eviction of the oldest entry and no new particle. -/
theorem claim3_amended_cap_halts_production (star : StarSnapshot)
    (rng : ℕ → ℕ → ℝ) (st : DebrisSystem)
    (h : StellarDebris.maxParticles ≤ st.particleCount) :
    StellarDebris.generateDebrisFromStar star rng st = st := by
  unfold StellarDebris.generateDebrisFromStar
  rw [StellarDebris.generateLoop]
  rw [if_pos h]

/-- Witness for the amended C3: a pool that is past the cap. -/
theorem claim3_amended_cap_halts_production_witness :
    StellarDebris.generateDebrisFromStar sampleStarSnapshot sampleDebrisRng
        { particles := List.replicate 5001 sampleDebrisParticle, particleCount := 5001 } =
      { particles := List.replicate 5001 sampleDebrisParticle, particleCount := 5001 } :=
  claim3_amended_cap_halts_production sampleStarSnapshot sampleDebrisRng _
    (by norm_num [StellarDebris.maxParticles])

/-! ## Helper lemmas on the debris phases -/

namespace StellarDebris

theorem streamPhase_position (blackHoleMass distance : ℝ) (p : DebrisParticle)
    (hs : p.inStream = true) (hc : p.circularized = false) :
    (streamPhase blackHoleMass distance p).position = p.position.normalize := by
  unfold streamPhase
  rw [if_pos (by simp [hs, hc])]
  dsimp only
  split_ifs <;> rfl

theorem streamPhase_skip (blackHoleMass distance : ℝ) (p : DebrisParticle)
    (h : p.inStream = false) :
    streamPhase blackHoleMass distance p = p := by
  unfold streamPhase
  rw [if_neg (by simp [h])]

theorem streamPhase_circularized_iff (blackHoleMass distance : ℝ)
    (p : DebrisParticle) (hs : p.inStream = true) (hc : p.circularized = false) :
    ((streamPhase blackHoleMass distance p).circularized = true ↔
      (|Vec3.dot p.velocity p.position.normalize| < 0.1 ∧ distance > ISCO * 1.5)) := by
  unfold streamPhase
  rw [if_pos (by simp [hs, hc])]
  dsimp only
  split_ifs with h
  · simpa using h
  · simpa [hc] using h

theorem streamPhase_velocity_on_transition (blackHoleMass distance : ℝ)
    (p : DebrisParticle) (hs : p.inStream = true) (hc : p.circularized = false)
    (hrad : |Vec3.dot p.velocity p.position.normalize| < 0.1)
    (hfar : distance > ISCO * 1.5) :
    (streamPhase blackHoleMass distance p).velocity =
      Vec3.smul (calculateOrbitalVelocity blackHoleMass distance)
        (Vec3.cross p.angularMomentum p.position.normalize).normalize := by
  unfold streamPhase
  rw [if_pos (by simp [hs, hc])]
  dsimp only
  rw [if_pos ⟨hrad, hfar⟩]

theorem viscousPhase_position (blackHoleMass : ℝ) (p : DebrisParticle) :
    (viscousPhase blackHoleMass p).position = p.position := by
  unfold viscousPhase
  split_ifs <;> rfl

theorem viscousPhase_inStream (blackHoleMass : ℝ) (p : DebrisParticle) :
    (viscousPhase blackHoleMass p).inStream = p.inStream := by
  unfold viscousPhase
  split_ifs <;> rfl

theorem viscousPhase_circularized (blackHoleMass : ℝ) (p : DebrisParticle) :
    (viscousPhase blackHoleMass p).circularized = p.circularized := by
  unfold viscousPhase
  split_ifs <;> rfl

theorem debrisStep_some (blackHoleMass deltaTime : ℝ) (p : DebrisParticle)
    (hage : p.age + 1 ≤ p.maxAge) (hdist : eventHorizon ≤ p.position.length) :
    debrisStep blackHoleMass deltaTime p =
      some (debrisAdvance blackHoleMass deltaTime p) := by
  unfold debrisStep
  rw [if_neg (not_lt.mpr hage), if_neg (not_lt.mpr hdist)]

theorem debrisStep_inv (blackHoleMass deltaTime : ℝ) (p q : DebrisParticle)
    (h : debrisStep blackHoleMass deltaTime p = some q) :
    q = debrisAdvance blackHoleMass deltaTime p := by
  unfold debrisStep at h
  split_ifs at h
  exact (Option.some.inj h).symm

theorem debrisAdvance_position (blackHoleMass deltaTime : ℝ) (p : DebrisParticle) :
    (debrisAdvance blackHoleMass deltaTime p).position =
      Vec3.add (viscousPhase blackHoleMass
          (streamPhase blackHoleMass p.position.length
            { p with age := p.age + 1 })).position
        (Vec3.smul deltaTime (debrisAdvance blackHoleMass deltaTime p).velocity) := by
  unfold debrisAdvance
  dsimp only

theorem debrisAdvance_circularized (blackHoleMass deltaTime : ℝ) (p : DebrisParticle) :
    (debrisAdvance blackHoleMass deltaTime p).circularized =
      (streamPhase blackHoleMass p.position.length
        { p with age := p.age + 1 }).circularized := by
  unfold debrisAdvance
  dsimp only
  exact viscousPhase_circularized _ _

theorem debrisAdvance_inStream (blackHoleMass deltaTime : ℝ) (p : DebrisParticle) :
    (debrisAdvance blackHoleMass deltaTime p).inStream =
      (streamPhase blackHoleMass p.position.length
        { p with age := p.age + 1 }).inStream := by
  unfold debrisAdvance
  dsimp only
  exact viscousPhase_inStream _ _

end StellarDebris

/-- C9.  For an in-stream debris particle that survives the age and capture
checks, the radial-velocity test's `p.position.normalize()` replaces the
stored position with its unit vector before integration, so the post-tick
position is the unit vector of the pre-tick position plus `velocity · dt`,
whatever the pre-tick distance was. -/
theorem claim9_stream_normalizes_position (blackHoleMass deltaTime : ℝ)
    (p : DebrisParticle) (hs : p.inStream = true) (hc : p.circularized = false)
    (hage : p.age + 1 ≤ p.maxAge)
    (hdist : StellarDebris.eventHorizon ≤ p.position.length) :
    ∃ q, StellarDebris.debrisStep blackHoleMass deltaTime p = some q ∧
      q.position = Vec3.add p.position.normalize (Vec3.smul deltaTime q.velocity) := by
  refine ⟨_, StellarDebris.debrisStep_some _ _ _ hage hdist, ?_⟩
  rw [StellarDebris.debrisAdvance_position, StellarDebris.viscousPhase_position,
    StellarDebris.streamPhase_position blackHoleMass p.position.length
      { p with age := p.age + 1 } hs hc]

/-- Witness for C9: a particle at `(20, 0, 0)` (distance 20 from center);
after one tick its stored position is built from the unit vector `(1,0,0)`. -/
theorem claim9_stream_normalizes_position_witness :
    ∃ q, StellarDebris.debrisStep 66e9 0.016 sampleDebrisStream = some q ∧
      q.position = Vec3.add sampleDebrisStream.position.normalize
        (Vec3.smul 0.016 q.velocity) := by
  have hlen : (sampleDebrisStream.position).length = 20 := by
    show ((⟨20, 0, 0⟩ : Vec3)).length = 20
    exact Vec3.length_axis 20 (by norm_num)
  exact claim9_stream_normalizes_position 66e9 0.016 sampleDebrisStream rfl rfl
    (by show (0 : ℝ) + 1 ≤ 50; norm_num)
    (by rw [hlen]; norm_num [StellarDebris.eventHorizon])

/-- C4.  For a surviving in-stream debris particle, the circularization flag
after the tick is set exactly when `|v_radial| < 0.1` and the pre-tick
distance exceeds `1.5 · r_isco`; on transition, velocity is reassigned to
the circular-orbit speed at the current distance along the tangent derived
from the angular momentum; and a circularized particle that survives a tick
is still circularized and not in-stream. -/
theorem claim4_circularization :
    (∀ (blackHoleMass deltaTime : ℝ) (p : DebrisParticle),
      p.inStream = true → p.circularized = false →
      p.age + 1 ≤ p.maxAge → StellarDebris.eventHorizon ≤ p.position.length →
      ∃ q, StellarDebris.debrisStep blackHoleMass deltaTime p = some q ∧
        (q.circularized = true ↔
          (|Vec3.dot p.velocity p.position.normalize| < 0.1 ∧
            p.position.length > StellarDebris.ISCO * 1.5))) ∧
    (∀ (blackHoleMass distance : ℝ) (p : DebrisParticle),
      p.inStream = true → p.circularized = false →
      |Vec3.dot p.velocity p.position.normalize| < 0.1 →
      distance > StellarDebris.ISCO * 1.5 →
      (StellarDebris.streamPhase blackHoleMass distance p).velocity =
        Vec3.smul (StellarDebris.calculateOrbitalVelocity blackHoleMass distance)
          (Vec3.cross p.angularMomentum p.position.normalize).normalize) ∧
    (∀ (blackHoleMass deltaTime : ℝ) (p q : DebrisParticle),
      p.circularized = true → p.inStream = false →
      StellarDebris.debrisStep blackHoleMass deltaTime p = some q →
      q.circularized = true ∧ q.inStream = false) := by
  refine ⟨?_, ?_, ?_⟩
  · intro blackHoleMass deltaTime p hs hc hage hdist
    refine ⟨_, StellarDebris.debrisStep_some _ _ _ hage hdist, ?_⟩
    rw [StellarDebris.debrisAdvance_circularized]
    exact StellarDebris.streamPhase_circularized_iff blackHoleMass
      p.position.length { p with age := p.age + 1 } hs hc
  · intro blackHoleMass distance p hs hc hrad hfar
    exact StellarDebris.streamPhase_velocity_on_transition blackHoleMass distance
      p hs hc hrad hfar
  · intro blackHoleMass deltaTime p q hcirc hin hstep
    have hq := StellarDebris.debrisStep_inv blackHoleMass deltaTime p q hstep
    subst hq
    constructor
    · rw [StellarDebris.debrisAdvance_circularized,
        StellarDebris.streamPhase_skip blackHoleMass p.position.length
          { p with age := p.age + 1 } hin]
      exact hcirc
    · rw [StellarDebris.debrisAdvance_inStream,
        StellarDebris.streamPhase_skip blackHoleMass p.position.length
          { p with age := p.age + 1 } hin]
      exact hin

/-- Witness for C4: a particle at radius 30 with purely tangential velocity
(|v_radial| = 0 < 0.1, 30 > 27) and a circularized particle stepped once. -/
theorem claim4_circularization_witness :
    (∃ q, StellarDebris.debrisStep 66e9 0.016 sampleDebrisParticle = some q ∧
      (q.circularized = true ↔
        (|Vec3.dot sampleDebrisParticle.velocity
            sampleDebrisParticle.position.normalize| < 0.1 ∧
          sampleDebrisParticle.position.length > StellarDebris.ISCO * 1.5))) ∧
    (∃ q, StellarDebris.debrisStep 66e9 0.016 sampleDebrisCirc = some q ∧
      q.circularized = true ∧ q.inStream = false) := by
  have hlen : (sampleDebrisParticle.position).length = 30 := by
    show ((⟨30, 0, 0⟩ : Vec3)).length = 30
    exact Vec3.length_axis 30 (by norm_num)
  have hlenC : (sampleDebrisCirc.position).length = 30 := hlen
  constructor
  · exact claim4_circularization.1 66e9 0.016 sampleDebrisParticle rfl rfl
      (by show (0 : ℝ) + 1 ≤ 100; norm_num)
      (by rw [hlen]; norm_num [StellarDebris.eventHorizon])
  · have hstep := StellarDebris.debrisStep_some 66e9 0.016 sampleDebrisCirc
      (by show (0 : ℝ) + 1 ≤ 100; norm_num)
      (by rw [hlenC]; norm_num [StellarDebris.eventHorizon])
    exact ⟨_, hstep,
      claim4_circularization.2.2 66e9 0.016 sampleDebrisCirc _ rfl rfl hstep⟩

/-! ## Helper lemmas on the disk step -/

namespace DiskSim

theorem forceDecomp_off (P : SimParams) (comp : Option CompanionState)
    (p : DiskParticle) (h : P.showCompanionStar = false) :
    forceDecomp P comp p = ⟨0, 0, 0⟩ := by
  unfold forceDecomp
  rw [if_neg (by simp [h])]

theorem diskStep_not_inISCO (P : SimParams) (comp : Option CompanionState)
    (iscoRadius dt : ℝ) (rng : DiskRng) (p : DiskParticle)
    (h : ¬(iscoRadius - 3 ≤ diskIntegratedRadius P comp dt p ∧
      diskIntegratedRadius P comp dt p ≤ iscoRadius + 3)) :
    (diskStep P comp iscoRadius dt rng p).2 = false := by
  unfold diskStep
  dsimp only
  rw [if_neg h]

theorem diskStep_fall_reset (P : SimParams) (comp : Option CompanionState)
    (iscoRadius dt : ℝ) (rng : DiskRng) (p : DiskParticle)
    (hfall : diskIntegratedRadius P comp dt p < iscoRadius - 3) :
    (diskStep P comp iscoRadius dt rng p).1.radius = p.initialRadius ∧
    (diskStep P comp iscoRadius dt rng p).1.angle =
      rng.fallAngle * (2 * Real.pi) ∧
    (diskStep P comp iscoRadius dt rng p).1.frameDragAccumulated = 0 := by
  have hnot : ¬(iscoRadius - 3 ≤ diskIntegratedRadius P comp dt p ∧
      diskIntegratedRadius P comp dt p ≤ iscoRadius + 3) :=
    fun hiso => absurd hfall (not_lt.mpr hiso.1)
  unfold diskStep
  dsimp only
  rw [if_neg hnot]
  dsimp only
  rw [if_pos hfall]
  exact ⟨rfl, rfl, rfl⟩

theorem updateDiskParticles_length (P : SimParams) (comp : Option CompanionState)
    (iscoRadius : ℝ) (rng : ℕ → DiskRng) (ps : List DiskParticle) :
    ((updateDiskParticles P comp iscoRadius rng ps).1).length = ps.length := by
  unfold updateDiskParticles
  dsimp only
  rw [List.length_map, List.length_mapIdx]

end DiskSim

/-- C1.  `updateDiskParticles` neither adds nor removes disk particles (the
pool length is invariant), and a particle whose integrated radius falls
below `iscoRadius - 3` in a tick without a jet launch is reset in that same
tick to its initial seed radius, with a fresh random angle and cleared
frame-drag accumulator. -/
theorem claim1_disk_population_and_reset :
    (∀ (P : SimParams) (comp : Option CompanionState) (iscoRadius : ℝ)
        (rng : ℕ → DiskRng) (ps : List DiskParticle),
      ((DiskSim.updateDiskParticles P comp iscoRadius rng ps).1).length = ps.length) ∧
    (∀ (P : SimParams) (comp : Option CompanionState) (iscoRadius dt : ℝ)
        (rng : DiskRng) (p : DiskParticle),
      (DiskSim.diskStep P comp iscoRadius dt rng p).2 = false →
      DiskSim.diskIntegratedRadius P comp dt p < iscoRadius - 3 →
      (DiskSim.diskStep P comp iscoRadius dt rng p).1.radius = p.initialRadius ∧
      (DiskSim.diskStep P comp iscoRadius dt rng p).1.angle =
        rng.fallAngle * (2 * Real.pi) ∧
      (DiskSim.diskStep P comp iscoRadius dt rng p).1.frameDragAccumulated = 0) := by
  constructor
  · exact DiskSim.updateDiskParticles_length
  · intro P comp iscoRadius dt rng p _ hfall
    exact DiskSim.diskStep_fall_reset P comp iscoRadius dt rng p hfall

/-- Witness for C1: a one-particle pool, and the particle at radius 5 below
a 30-unit ISCO, which is reset to its seed radius 50 with the fresh angle. -/
theorem claim1_disk_population_and_reset_witness :
    ((DiskSim.updateDiskParticles sampleParams none 30 (fun _ => sampleRng)
      [sampleDiskParticle]).1).length = 1 ∧
    (DiskSim.diskStep sampleParams none 30 0.016 sampleRng
      sampleDiskParticle).1.radius = sampleDiskParticle.initialRadius ∧
    (DiskSim.diskStep sampleParams none 30 0.016 sampleRng
      sampleDiskParticle).1.angle = sampleRng.fallAngle * (2 * Real.pi) ∧
    (DiskSim.diskStep sampleParams none 30 0.016 sampleRng
      sampleDiskParticle).1.frameDragAccumulated = 0 := by
  have hrad : DiskSim.diskIntegratedRadius sampleParams none 0.016 sampleDiskParticle = 5 := by
    unfold DiskSim.diskIntegratedRadius DiskSim.diskRadialVelocity DiskSim.baseRadialAccel
    rw [DiskSim.forceDecomp_off sampleParams none sampleDiskParticle rfl]
    norm_num [sampleDiskParticle]
  have hlaunch : (DiskSim.diskStep sampleParams none 30 0.016 sampleRng
      sampleDiskParticle).2 = false :=
    DiskSim.diskStep_not_inISCO sampleParams none 30 0.016 sampleRng
      sampleDiskParticle (by rw [hrad]; norm_num)
  obtain ⟨h1, h2, h3⟩ := claim1_disk_population_and_reset.2 sampleParams none 30
    0.016 sampleRng sampleDiskParticle hlaunch (by rw [hrad]; norm_num)
  exact ⟨(claim1_disk_population_and_reset.1 sampleParams none 30
    (fun _ => sampleRng) [sampleDiskParticle]).trans rfl, h1, h2, h3⟩

/-- The influence radius stored in `sampleCompanionC` is the one the
constructor path would derive: `25 · ((1584 / 66) / 3)^(1/3) = 25 · 2 = 50`. -/
theorem sampleCompanionC_influence :
    CompanionStar.calculateHillRadius 1584 66e9 25 = 50 := by
  unfold CompanionStar.calculateHillRadius
  rw [show (1584 : ℝ) / ((66e9 : ℝ) / 1e9) / 3 = 8 by norm_num]
  rw [show (8 : ℝ) = 2 ^ (3 : ℕ) by norm_num, ← Real.rpow_natCast (2 : ℝ) 3,
    ← Real.rpow_mul (by norm_num : (0 : ℝ) ≤ 2)]
  norm_num

/-- C6 counterexample.  The integrated tangential velocity is NOT floored at
the base Keplerian value: with the companion enabled, the companion's
gravity can have a negative tangential component, and the update assigns
`vTangential = base + accel`, which then falls strictly below the base
Keplerian value.  Concretely: particle at azimuth `π/2`, radius 25 (world
position `(0,0,25)`), companion at `(25,0,0)` with influence radius 50 and
wind disabled. -/
theorem claim6_counterexample :
    (DiskSim.diskStep sampleParamsC (some sampleCompanionC) 4 0.016 sampleRng
      sampleDiskParticleC).1.vTangential <
      sampleDiskParticleC.speed * sampleParamsC.diskRotationSpeed * 60 := by
  have h2500 : Real.sqrt 2500 = 50 := by
    rw [show (2500 : ℝ) = 50 ^ 2 by norm_num]
    exact Real.sqrt_sq (by norm_num)
  have hle50 : Real.sqrt 1250 ≤ 50 := by
    rw [← h2500]
    exact Real.sqrt_le_sqrt (by norm_num)
  have hpos1250 : 0 < Real.sqrt 1250 := Real.sqrt_pos.mpr (by norm_num)
  set c0 : ℝ := 1584 * 1 / (Real.sqrt 1250 * Real.sqrt 1250 + 1) * 0.001 *
    (1 / Real.sqrt 1250) with hc0
  have hc0pos : 0 < c0 := by
    rw [hc0]
    have h1 : 0 < Real.sqrt 1250 * Real.sqrt 1250 + 1 := by positivity
    positivity
  have hpos : DiskSim.particlePos sampleDiskParticleC = ⟨0, 0, 25⟩ := by
    unfold DiskSim.particlePos
    apply Vec3.ext <;>
      norm_num [sampleDiskParticleC, Real.cos_pi_div_two, Real.sin_pi_div_two]
  have htoStar : Vec3.sub sampleCompanionC.position ⟨0, 0, 25⟩ = ⟨25, 0, -25⟩ := by
    apply Vec3.ext <;>
      norm_num [sampleCompanionC, CompanionStar.defaultCompanion, Vec3.sub]
  have hlenStar : ((⟨25, 0, -25⟩ : Vec3)).length = Real.sqrt 1250 := by
    unfold Vec3.length
    norm_num
  have hEG : ¬(sampleCompanionC.enableGravity = false) := by
    norm_num [sampleCompanionC, CompanionStar.defaultCompanion]
  have hgrav : CompanionStar.calculateGravitationalForce sampleCompanionC ⟨0, 0, 25⟩ =
      Vec3.smul c0 ⟨25, 0, -25⟩ := by
    unfold CompanionStar.calculateGravitationalForce
    rw [if_neg hEG]
    dsimp only
    rw [htoStar, hlenStar]
    rw [if_neg (not_lt.mpr (show Real.sqrt 1250 ≤ sampleCompanionC.influenceRadius from hle50))]
    unfold Vec3.normalize
    rw [hlenStar, if_neg (ne_of_gt hpos1250), Vec3.smul_smul, hc0]
    rfl
  have hwind : CompanionStar.calculateWindForce sampleCompanionC ⟨0, 0, 25⟩ = Vec3.zero := by
    unfold CompanionStar.calculateWindForce
    rw [if_pos (show sampleCompanionC.enableWind = false from rfl)]
  have hforce : CompanionStar.getParticleForce sampleCompanionC ⟨0, 0, 25⟩ =
      Vec3.smul c0 ⟨25, 0, -25⟩ := by
    unfold CompanionStar.getParticleForce
    rw [hgrav, hwind, Vec3.add_zero_right]
  have hflen : 0 < (Vec3.smul c0 ⟨25, 0, -25⟩).length := by
    rw [Vec3.length_smul, hlenStar]
    exact mul_pos (abs_pos.mpr (ne_of_gt hc0pos)) hpos1250
  have h625 : Real.sqrt ((0 : ℝ) ^ 2 + 25 ^ 2) = 25 := by
    rw [show (0 : ℝ) ^ 2 + 25 ^ 2 = 25 ^ 2 by norm_num]
    exact Real.sqrt_sq (by norm_num)
  have hdec : (DiskSim.forceDecomp sampleParamsC (some sampleCompanionC)
      sampleDiskParticleC).tangential = -(c0 * 25) := by
    unfold DiskSim.forceDecomp
    rw [if_pos (show sampleParamsC.showCompanionStar = true from rfl)]
    dsimp only
    rw [hpos, hforce]
    rw [if_pos hflen]
    dsimp only
    rw [h625, if_neg (by norm_num : ¬(25 : ℝ) = 0)]
    dsimp [Vec3.smul]
    ring
  unfold DiskSim.diskStep
  dsimp only
  rw [hdec]
  have hmass : sampleDiskParticleC.mass = 1 := rfl
  rw [hmass]
  have : -(c0 * 25) * 1.2 / 1 < 0 := by nlinarith
  linarith

/-- C6 amended.  The update assigns the tangential velocity to the base
Keplerian term plus the companion tangential acceleration (an offset, not a
floor): with companion influence disabled it equals
`speed · diskRotationSpeed · 60` exactly on every tick, which for the seeded
Keplerian speed is `0.007 · 98^1.5 · diskRotationSpeed · 60 · r^(-1.5)` —
proportional to `r^(-1.5)` — with no transient at all. -/
theorem claim6_amended_tangential (P : SimParams) (comp : Option CompanionState)
    (iscoRadius dt : ℝ) (rng : DiskRng) (p : DiskParticle)
    (hoff : P.showCompanionStar = false) :
    (DiskSim.diskStep P comp iscoRadius dt rng p).1.vTangential =
      p.speed * P.diskRotationSpeed * 60 ∧
    (0 < p.radius → p.speed = DiskSim.keplerianSpeed p.radius →
      (DiskSim.diskStep P comp iscoRadius dt rng p).1.vTangential =
        0.007 * (98 : ℝ) ^ ((1.5 : ℝ)) * P.diskRotationSpeed * 60 *
          p.radius ^ (-(1.5 : ℝ))) := by
  have hbase : (DiskSim.diskStep P comp iscoRadius dt rng p).1.vTangential =
      p.speed * P.diskRotationSpeed * 60 := by
    unfold DiskSim.diskStep
    dsimp only
    rw [DiskSim.forceDecomp_off P comp p hoff]
    dsimp only
    norm_num
  refine ⟨hbase, ?_⟩
  intro hr hspeed
  rw [hbase, hspeed]
  unfold DiskSim.keplerianSpeed
  rw [Real.div_rpow (by norm_num) (le_of_lt hr), Real.rpow_neg (le_of_lt hr)]
  field_simp

/-- Witness for the amended C6: the Keplerian-seeded particle at radius 25
with the companion disabled. -/
theorem claim6_amended_tangential_witness :
    (DiskSim.diskStep sampleParams none 4 0.016 sampleRng
      sampleDiskParticleC).1.vTangential =
      sampleDiskParticleC.speed * sampleParams.diskRotationSpeed * 60 ∧
    (DiskSim.diskStep sampleParams none 4 0.016 sampleRng
      sampleDiskParticleC).1.vTangential =
      0.007 * (98 : ℝ) ^ ((1.5 : ℝ)) * sampleParams.diskRotationSpeed * 60 *
        (sampleDiskParticleC.radius) ^ (-(1.5 : ℝ)) :=
  ⟨(claim6_amended_tangential sampleParams none 4 0.016 sampleRng
      sampleDiskParticleC rfl).1,
   (claim6_amended_tangential sampleParams none 4 0.016 sampleRng
      sampleDiskParticleC rfl).2 (by norm_num [sampleDiskParticleC]) rfl⟩

end Ton618
